import Mathlib

/-!
Verification of the GES coastline analysis tool (`streamlit_app.py`).

The program is glue over a remote geospatial backend: it builds raster
expressions (median composites, min/max normalization, a blended GES index,
a pixel-wise difference, a five-class histogram) and requests their
evaluation.  We give a shallow embedding of the pixel-level semantics of the
expressions the program builds:

* rasters over a finite pixel grid are functions `Fin n → Option ℚ`
  (`none` is a masked pixel) or `Fin n → ℚ` for fully valid composites;
* region-wide reductions (`reduceRegion` with `minMax` / `count`) are exact
  folds over the grid;
* the date filter, the error classification, the export/download control
  flow and the region resolver are embedded directly from the source.
-/

/-! ## Python string helpers: `str.lower` and the `in` substring test -/

/-- `needle.isPrefixOf hay` on character lists (Python slice comparison). -/
def isPrefOf : List Char → List Char → Bool
  | [], _ => true
  | _ :: _, [] => false
  | a :: as, b :: bs => a == b && isPrefOf as bs

/-- Python's substring test `needle in hay` on character lists. -/
def containsSub (needle : List Char) : List Char → Bool
  | [] => needle.isEmpty
  | c :: rest => isPrefOf needle (c :: rest) || containsSub needle rest

/-- Python's `str.lower()` (ASCII case folding suffices for the messages used). -/
def lowered (s : String) : List Char := s.toList.map Char.toLower

/-! ## Error classification in `get_ges` (source lines 131-138)

```python
except ee.EEException as e:
    error_message = str(e)
    if "out of memory" in error_message.lower() or "memory" in error_message.lower():
        raise MemoryError("The operation exceeded the memory limit. ...")
    elif "timeout" in error_message.lower():
        raise TimeoutError("The operation timed out. ...")
    else:
        raise
```
-/

def kwOutOfMemory : List Char := "out of memory".toList

def kwMemory : List Char := "memory".toList

def kwTimeout : List Char := "timeout".toList

/-- Message attached to the re-raised `MemoryError` in the source. -/
def memoryLimitMsg : String :=
  "The operation exceeded the memory limit. Please try selecting a smaller area or a shorter time range."

/-- Message attached to the re-raised `TimeoutError` in the source. -/
def timeoutMsg : String :=
  "The operation timed out. Please try again with a smaller area or shorter time range."

/-- The error that escapes `get_ges` when the backend raises `ee.EEException`:
either a re-signalled `MemoryError`, a re-signalled `TimeoutError`, or the
original backend exception re-raised unchanged. -/
inductive RaisedError where
  | memoryError (msg : String)
  | timeoutError (msg : String)
  | eeError (msg : String)
  deriving DecidableEq, Repr

/-- The `except ee.EEException` branch of `get_ges`, as a function from the
backend error message to the error the caller observes. -/
def get_ges_handle_error (error_message : String) : RaisedError :=
  if containsSub kwOutOfMemory (lowered error_message)
      || containsSub kwMemory (lowered error_message) then
    .memoryError memoryLimitMsg
  else if containsSub kwTimeout (lowered error_message) then
    .timeoutError timeoutMsg
  else
    .eeError error_message

/-- The message of a backend error mentions a memory limit (Python test). -/
def mentionsMemory (msg : String) : Bool :=
  containsSub kwOutOfMemory (lowered msg) || containsSub kwMemory (lowered msg)

/-- The message of a backend error mentions a timeout (Python test). -/
def mentionsTimeout (msg : String) : Bool :=
  containsSub kwTimeout (lowered msg)

/-- Guidance phrase required by the spec: suggest a smaller area. -/
def kwSmallerArea : List Char := "smaller area".toList

/-- Guidance phrase required by the spec: suggest a shorter time range. -/
def kwShorterRange : List Char := "shorter time range".toList

/-! ## Pixel-wise rasters and the diff raster (source line 250) -/

/-- Earth Engine `Image.subtract`: pixel-wise difference, masked wherever
either operand is masked. -/
def imageSubtract {n : ℕ} (a b : Fin n → Option ℚ) : Fin n → Option ℚ :=
  fun i =>
    match a i, b i with
    | some x, some y => some (x - y)
    | some _, none => none
    | none, _ => none

/-- The synthetic 2-pixel start-year raster from the spec: `[10, -10]`. -/
def demoFirst : Fin 2 → Option ℚ := ![some 10, some (-10)]

/-- The synthetic 2-pixel end-year raster from the spec: `[30, 5]`. -/
def demoLast : Fin 2 → Option ℚ := ![some 30, some 5]

/-! ## The GES index raster (source lines 110-123)

The composites `ndvi_mean` and `lst_mean` are rasters over the region; the
source computes their region-wide min/max with
`reduceRegion(ee.Reducer.minMax(), intersection, 1000, maxPixels=1e13)` and
normalizes.  We model a composite as a total function on the `n+1` valid
pixels of the region and the zonal min/max reduction as the exact min/max
over those pixels. -/

/-- Zonal minimum of a composite over the region (`ee.Reducer.minMax`, min part). -/
def regionMin {n : ℕ} (f : Fin (n + 1) → ℚ) : ℚ :=
  Finset.univ.inf' Finset.univ_nonempty f

/-- Zonal maximum of a composite over the region (`ee.Reducer.minMax`, max part). -/
def regionMax {n : ℕ} (f : Fin (n + 1) → ℚ) : ℚ :=
  Finset.univ.sup' Finset.univ_nonempty f

/-- Source line 119:
`ndvi_normal = (ndvi_mean.subtract(ndvi_min).divide(ndvi_max.subtract(ndvi_min))).multiply(100)`. -/
def ndvi_normal {n : ℕ} (ndvi_mean : Fin (n + 1) → ℚ) (i : Fin (n + 1)) : ℚ :=
  (ndvi_mean i - regionMin ndvi_mean) / (regionMax ndvi_mean - regionMin ndvi_mean) * 100

/-- Source line 120:
`lst_normal = (lst_mean.subtract(lst_min).divide(lst_max.subtract(lst_min))).multiply(100).subtract(100)`. -/
def lst_normal {n : ℕ} (lst_mean : Fin (n + 1) → ℚ) (i : Fin (n + 1)) : ℚ :=
  (lst_mean i - regionMin lst_mean) / (regionMax lst_mean - regionMin lst_mean) * 100 - 100

/-- Source line 123: `GES = ndvi_normal.multiply(0.5).add(lst_normal.multiply(0.5))`. -/
def GES_raster {n : ℕ} (ndvi_mean lst_mean : Fin (n + 1) → ℚ) (i : Fin (n + 1)) : ℚ :=
  ndvi_normal ndvi_mean i * 0.5 + lst_normal lst_mean i * 0.5

/-- The spec's normalization formula, written from the spec's words:
`normalize(x) = (x − regionMin(x)) / (regionMax(x) − regionMin(x)) * 100`. -/
def spec_normalize (x mn mx : ℚ) : ℚ :=
  (x - mn) / (mx - mn) * 100

/-- Visualization minimum of `ges_params1` (source lines 32-38). -/
def ges_params1_min : ℚ := -50

/-- Visualization maximum of `ges_params1` (source lines 32-38). -/
def ges_params1_max : ℚ := 50

lemma regionMin_le {n : ℕ} (f : Fin (n + 1) → ℚ) (i : Fin (n + 1)) :
    regionMin f ≤ f i :=
  Finset.inf'_le _ (Finset.mem_univ i)

lemma le_regionMax {n : ℕ} (f : Fin (n + 1) → ℚ) (i : Fin (n + 1)) :
    f i ≤ regionMax f :=
  Finset.le_sup' _ (Finset.mem_univ i)

lemma lst_normal_shift {n : ℕ} (f : Fin (n + 1) → ℚ) (i : Fin (n + 1)) :
    lst_normal f i = ndvi_normal f i - 100 := rfl

lemma ndvi_normal_bounds {n : ℕ} (f : Fin (n + 1) → ℚ)
    (h : regionMin f < regionMax f) (i : Fin (n + 1)) :
    0 ≤ ndvi_normal f i ∧ ndvi_normal f i ≤ 100 := by
  have hd : 0 < regionMax f - regionMin f := sub_pos.mpr h
  have h1 : 0 ≤ f i - regionMin f := sub_nonneg.mpr (regionMin_le f i)
  have h2 : f i - regionMin f ≤ regionMax f - regionMin f := by
    have := le_regionMax f i
    linarith
  have hq0 : 0 ≤ (f i - regionMin f) / (regionMax f - regionMin f) :=
    div_nonneg h1 hd.le
  have hq1 : (f i - regionMin f) / (regionMax f - regionMin f) ≤ 1 :=
    (div_le_one hd).mpr h2
  unfold ndvi_normal
  constructor <;> nlinarith

/-! ## The five-class histogram of `process_and_display` (source lines 41-47, 145-158)

`ges_params` maps class labels to `(lower, upper)` ranges, `upper` being
`float('inf')` for the last class; we model `inf` as `none`.  For each class
the source masks the diff raster to the class interval
(`gte(lower)` alone when `upper == inf`, otherwise `gte(lower).And(lt(upper))`)
and counts surviving pixels with `ee.Reducer.count()`. -/

/-- Source lines 41-47: the class labels and ranges for `GES_diff`
(`float('inf')` rendered as `none`). -/
def ges_params : List (String × ℚ × Option ℚ) :=
  [("Very Severe", -100, some (-25)),
   ("Severe", -25, some (-5)),
   ("No Change", -5, some 5),
   ("Good Envionmental", 5, some 25),
   ("Excellent improvement", 25, none)]

/-- Source lines 148-151: the per-class mask
(`GES_first.gte(lower)` when `upper == float('inf')`, otherwise
`GES_first.gte(lower).And(GES_first.lt(upper))`). -/
def class_mask (lower : ℚ) (upper : Option ℚ) (v : ℚ) : Bool :=
  match upper with
  | none => decide (lower ≤ v)
  | some u => decide (lower ≤ v) && decide (v < u)

/-- Earth Engine `Image.updateMask`: keep a pixel iff it is valid and the
mask holds at its value. -/
def updateMask {n : ℕ} (r : Fin n → Option ℚ) (m : ℚ → Bool) : Fin n → Option ℚ :=
  fun i =>
    match r i with
    | some v => if m v then some v else none
    | none => none

/-- `reduceRegion(ee.Reducer.count(), scale=1000, maxPixels=1e13)`:
the number of valid (unmasked) pixels. -/
def reduceRegionCount {n : ℕ} (r : Fin n → Option ℚ) : ℕ :=
  (Finset.univ.filter fun i => (r i).isSome).card

/-- Source line 153: the count of pixels surviving the class mask. -/
def class_count {n : ℕ} (d : Fin n → Option ℚ) (lower : ℚ) (upper : Option ℚ) : ℕ :=
  reduceRegionCount (updateMask d (class_mask lower upper))

/-- The `class_counts` mapping built by the loop in `process_and_display`. -/
def class_counts {n : ℕ} (d : Fin n → Option ℚ) : List (String × ℕ) :=
  ges_params.map fun c => (c.1, class_count d c.2.1 c.2.2)

lemma updateMask_isSome {n : ℕ} (r : Fin n → Option ℚ) (m : ℚ → Bool) (i : Fin n) :
    (updateMask r m i).isSome
      = match r i with
        | some v => m v
        | none => false := by
  unfold updateMask
  cases hr : r i with
  | none => rfl
  | some v => cases hm : m v <;> simp [hm]

lemma class_mask_sum_eq_one (v : ℚ) (hv : -100 ≤ v) :
    (if class_mask (-100) (some (-25)) v then 1 else 0)
    + (if class_mask (-25) (some (-5)) v then 1 else 0)
    + (if class_mask (-5) (some 5) v then 1 else 0)
    + (if class_mask 5 (some 25) v then 1 else 0)
    + (if class_mask 25 none v then (1 : ℕ) else 0) = 1 := by
  rcases lt_or_le v (-25) with h1 | h1
  · simp [class_mask, hv, h1, (by linarith : ¬(-25 : ℚ) ≤ v),
      (by linarith : ¬(-5 : ℚ) ≤ v), (by linarith : ¬(5 : ℚ) ≤ v),
      (by linarith : ¬(25 : ℚ) ≤ v)]
  · rcases lt_or_le v (-5) with h2 | h2
    · simp [class_mask, h1, h2, (by linarith : ¬v < -25),
        (by linarith : ¬(-5 : ℚ) ≤ v), (by linarith : ¬(5 : ℚ) ≤ v),
        (by linarith : ¬(25 : ℚ) ≤ v)]
    · rcases lt_or_le v 5 with h3 | h3
      · simp [class_mask, h2, h3, (by linarith : ¬v < -25),
          (by linarith : ¬v < -5), (by linarith : (-100 : ℚ) ≤ v),
          (by linarith : (-25 : ℚ) ≤ v), (by linarith : ¬(5 : ℚ) ≤ v),
          (by linarith : ¬(25 : ℚ) ≤ v)]
      · rcases lt_or_le v 25 with h4 | h4
        · simp [class_mask, h3, h4, (by linarith : ¬v < -25),
            (by linarith : ¬v < -5), (by linarith : ¬v < 5),
            (by linarith : (-100 : ℚ) ≤ v), (by linarith : (-25 : ℚ) ≤ v),
            (by linarith : (-5 : ℚ) ≤ v), (by linarith : ¬(25 : ℚ) ≤ v)]
        · simp [class_mask, h4, (by linarith : ¬v < -25),
            (by linarith : ¬v < -5), (by linarith : ¬v < 5),
            (by linarith : ¬v < 25), (by linarith : (-100 : ℚ) ≤ v),
            (by linarith : (-25 : ℚ) ≤ v), (by linarith : (-5 : ℚ) ≤ v),
            (by linarith : (5 : ℚ) ≤ v)]

lemma class_countP_eq_one (v : ℚ) (hv : -100 ≤ v) :
    ges_params.countP (fun c => class_mask c.2.1 c.2.2 v) = 1 := by
  have h := class_mask_sum_eq_one v hv
  simp only [ges_params, List.countP_cons, List.countP_nil]
  linarith [h]

lemma GES_raster_range {n : ℕ} (ndvi_mean lst_mean : Fin (n + 1) → ℚ)
    (hn : regionMin ndvi_mean < regionMax ndvi_mean)
    (hl : regionMin lst_mean < regionMax lst_mean) (i : Fin (n + 1)) :
    -50 ≤ GES_raster ndvi_mean lst_mean i ∧ GES_raster ndvi_mean lst_mean i ≤ 50 := by
  obtain ⟨hn0, hn1⟩ := ndvi_normal_bounds ndvi_mean hn i
  obtain ⟨hl0, hl1⟩ := ndvi_normal_bounds lst_mean hl i
  unfold GES_raster
  rw [lst_normal_shift]
  constructor <;> nlinarith

lemma class_counts_sum_eq_total {n : ℕ} (d : Fin n → Option ℚ)
    (hval : ∀ i v, d i = some v → -100 ≤ v) :
    ((class_counts d).map Prod.snd).sum = reduceRegionCount d := by
  simp only [class_counts, ges_params, List.map_cons, List.map_nil, List.sum_cons,
    List.sum_nil, add_zero]
  unfold class_count reduceRegionCount
  simp only [Finset.card_filter]
  simp only [← Finset.sum_add_distrib]
  apply Finset.sum_congr rfl
  intro i _
  cases hd : d i with
  | none => simp [updateMask_isSome, hd]
  | some v =>
    simp only [updateMask_isSome, hd, Option.isSome_some, if_true]
    linarith [class_mask_sum_eq_one v (hval i v hd)]

/-! ## Collection fetching and date filtering (source lines 70-74, 98-101)

`get_ges` builds `start_date` as year-01-01 and `end_date` as year-12-31
and calls `get_image_collection`, which runs
`collection.filterBounds(region).filterDate(start_date, end_date)` and then
maps the mask function.  Per the Earth Engine API reference,
`filterDate(start, end)` keeps images whose timestamp satisfies
`start <= t < end`: the start is inclusive and the end is exclusive. -/

/-- A calendar date (year, month, day). -/
structure EEDate where
  y : ℕ
  m : ℕ
  d : ℕ
  deriving DecidableEq, Repr

/-- Linearization of a date; strictly monotone on real dates
(`m ≤ 12`, `d ≤ 31`). -/
def EEDate.toOrd (dt : EEDate) : ℕ :=
  dt.y * 416 + dt.m * 32 + dt.d

/-- A scene of a satellite product collection: its acquisition date, whether
its footprint meets the region (the data consulted by `filterBounds`), and
its pixel raster. -/
structure Scene (n : ℕ) where
  date : EEDate
  inBounds : Bool
  pixels : Fin n → Option ℚ

/-- `collection.filterBounds(region)`. -/
def filterBoundsCol {n : ℕ} (col : List (Scene n)) : List (Scene n) :=
  col.filter (·.inBounds)

/-- `collection.filterDate(start_date, end_date)`: start inclusive, end
exclusive (Earth Engine API reference). -/
def filterDateCol {n : ℕ} (start_date end_date : EEDate) (col : List (Scene n)) :
    List (Scene n) :=
  col.filter fun s =>
    decide (start_date.toOrd ≤ s.date.toOrd) && decide (s.date.toOrd < end_date.toOrd)

/-- Source lines 70-74: fetch, filter by bounds and dates, then apply the
optional per-scene mask function. -/
def get_image_collection {n : ℕ} (collection : List (Scene n))
    (start_date end_date : EEDate) (mask_function : Option (Scene n → Scene n)) :
    List (Scene n) :=
  match mask_function with
  | some f => (filterDateCol start_date end_date (filterBoundsCol collection)).map f
  | none => filterDateCol start_date end_date (filterBoundsCol collection)

/-- Source line 98: `start_date`, the year-01-01 date. -/
def get_ges_start_date (year : ℕ) : EEDate := ⟨year, 1, 1⟩

/-- Source line 99: `end_date`, the year-12-31 date. -/
def get_ges_end_date (year : ℕ) : EEDate := ⟨year, 12, 31⟩

/-- A scene acquired on 2022-12-31 whose footprint meets the region. -/
def scene_dec31 : Scene 1 :=
  ⟨⟨2022, 12, 31⟩, true, fun _ => some 0⟩

/-- A scene acquired on 2022-12-30 whose footprint meets the region. -/
def scene_dec30 : Scene 1 :=
  ⟨⟨2022, 12, 30⟩, true, fun _ => some 0⟩

/-! ## The LST composite chain (source lines 105-108)

`lst_temp = lst.median()` and then
`lst_mean = lst_temp.unmask().focal_mean(radius=1, units=pixels,
iterations=1).clip(intersection)`.  We model a raster as one row of pixels,
so the radius-1 kernel at pixel `i` covers the indices at distance at most 1
from `i`. -/

/-- Insertion into a sorted list of rationals. -/
def insertSorted (a : ℚ) : List ℚ → List ℚ
  | [] => [a]
  | b :: bs => if a ≤ b then a :: b :: bs else b :: insertSorted a bs

/-- Insertion sort on rationals. -/
def sortQ : List ℚ → List ℚ
  | [] => []
  | a :: as => insertSorted a (sortQ as)

/-- `ee.Reducer.median` over the valid values at one pixel: none if no valid
value, the middle of the sorted values for an odd count, the mean of the two
middle values for an even count. -/
def medianOfList (l : List ℚ) : Option ℚ :=
  let s := sortQ l
  if s.isEmpty then none
  else if s.length % 2 = 1 then some (s.getD (s.length / 2) 0)
  else some ((s.getD (s.length / 2 - 1) 0 + s.getD (s.length / 2) 0) / 2)

/-- `collection.median()`: per-pixel median of the valid scene values. -/
def ee_median {n : ℕ} (scenes : List (Fin n → Option ℚ)) : Fin n → Option ℚ :=
  fun i => medianOfList (scenes.filterMap fun s => s i)

/-- `Image.unmask()`: replace masked pixels by the default value 0 and mark
every pixel valid. -/
def unmaskImage {n : ℕ} (r : Fin n → Option ℚ) : Fin n → ℚ :=
  fun i => (r i).getD 0

/-- The pixels within the radius-1 kernel centred at `i`. -/
def neighbors (n : ℕ) (i : Fin n) : Finset (Fin n) :=
  Finset.univ.filter fun j => (i : ℤ) - 1 ≤ (j : ℤ) ∧ (j : ℤ) ≤ (i : ℤ) + 1

/-- `focal_mean(radius=1, units=pixels, iterations=1)`: the mean of the
values inside the radius-1 kernel, at every pixel. -/
def focal_mean_r1 {n : ℕ} (f : Fin n → ℚ) (i : Fin n) : ℚ :=
  (∑ j ∈ neighbors n i, f j) / (neighbors n i).card

/-- `Image.clip(intersection)`: mask pixels outside the region. -/
def clipImage {n : ℕ} (region : Fin n → Bool) (r : Fin n → Option ℚ) :
    Fin n → Option ℚ :=
  fun i => if region i then r i else none

/-- Source line 108: the LST composite actually built by `get_ges`,
`lst.median().unmask().focal_mean(radius=1, units=pixels, iterations=1).clip(intersection)`. -/
def lst_mean_pipeline {n : ℕ} (scenes : List (Fin n → Option ℚ))
    (region : Fin n → Bool) : Fin n → Option ℚ :=
  clipImage region fun i => some (focal_mean_r1 (unmaskImage (ee_median scenes)) i)

/-- A single masked LST scene: pixel 0 valid with value 10, pixel 1 masked. -/
def demoLstScene : Fin 2 → Option ℚ := ![some 10, none]

/-- The all-true region mask on two pixels. -/
def demoRegionAll : Fin 2 → Bool := fun _ => true

/-! ## The region resolver `return_intersect` (source lines 77-93)

Vector geometries are modelled as finite sets of grid points;
`ee.Geometry.buffer` with a positive distance dilates (adds every point
within the distance, Chebyshev metric), with a negative distance erodes.
A feature collection is a list of `(country_na, geometry)` features;
`filter(ee.Filter.eq(country_na, country))` is an exact, case-sensitive
string match, `geometry()` is the union of the member geometries, and
`filterBounds(region)` keeps features whose geometry meets the region. -/

/-- The ball of Chebyshev radius `r` around a grid point. -/
def ballPt (p : ℤ × ℤ) (r : ℕ) : Finset (ℤ × ℤ) :=
  Finset.Icc (p.1 - r) (p.1 + r) ×ˢ Finset.Icc (p.2 - r) (p.2 + r)

/-- Dilation of a geometry by radius `r`. -/
def dilateG (g : Finset (ℤ × ℤ)) (r : ℕ) : Finset (ℤ × ℤ) :=
  g.biUnion fun p => ballPt p r

/-- Erosion of a geometry by radius `r`. -/
def erodeG (g : Finset (ℤ × ℤ)) (r : ℕ) : Finset (ℤ × ℤ) :=
  g.filter fun p => ballPt p r ⊆ g

/-- `ee.Geometry.buffer(d)`: dilation for `d ≥ 0`, erosion for `d < 0`. -/
def bufferG (g : Finset (ℤ × ℤ)) (d : ℤ) : Finset (ℤ × ℤ) :=
  if 0 ≤ d then dilateG g d.toNat else erodeG g (-d).toNat

/-- `countries.filter(ee.Filter.eq(country_na, country))`: exact
case-sensitive name equality. -/
def fc_filter_eq (fc : List (String × Finset (ℤ × ℤ))) (country : String) :
    List (String × Finset (ℤ × ℤ)) :=
  fc.filter fun f => f.1 == country

/-- `FeatureCollection.geometry()`: union of the member geometries (the
empty geometry for an empty collection). -/
def fc_geometry (fc : List (String × Finset (ℤ × ℤ))) : Finset (ℤ × ℤ) :=
  fc.foldr (fun f acc => f.2 ∪ acc) ∅

/-- `FeatureCollection.filterBounds(region)`: keep features whose geometry
meets the region. -/
def fc_filterBounds (fc : List (String × Finset (ℤ × ℤ)))
    (region : Finset (ℤ × ℤ)) : List (String × Finset (ℤ × ℤ)) :=
  fc.filter fun f => decide (f.2 ∩ region).Nonempty

/-- Source lines 77-93: `return_intersect(country, buffer_dist_km)` over the
country table and the coastline asset.  No branch raises: an unmatched
country name flows through as the empty geometry. -/
def return_intersect (countries coastlines : List (String × Finset (ℤ × ℤ)))
    (country : String) (buffer_dist_km : ℤ) :
    Finset (ℤ × ℤ) × Finset (ℤ × ℤ) × List (String × Finset (ℤ × ℤ)) :=
  let filtered := fc_filter_eq countries country
  let region := fc_geometry filtered
  let buffered := bufferG region (-buffer_dist_km * 1000)
  let outer_band := region \ buffered
  let ee_fc := fc_filterBounds coastlines region
  let coastline := fc_geometry ee_fc
  let coastline_buffer := bufferG coastline (buffer_dist_km * 1000)
  let intersection := outer_band ∩ coastline_buffer
  (intersection, region, filtered)

/-- A one-country reference table. -/
def demo_countries : List (String × Finset (ℤ × ℤ)) := [("Yemen", {(0, 0)})]

/-- A one-feature coastline asset. -/
def demo_coastlines : List (String × Finset (ℤ × ℤ)) := [("coast", {(0, 1)})]

/-- A country name matching no feature of the reference table. -/
def unknown_country : String := "Atlantis"

/-- A lowercased spelling of a listed country name. -/
def lowercase_yemen : String := "yemen"

/-- The listed country name, spelled exactly as in the table. -/
def yemen_name : String := "Yemen"

/-! ## Export and download (source lines 191-220, 264-266)

`download_gee_image` wraps the export and the download button in one
`try/except`: on success it emits a success message and a download button
bound to the exported bytes, on failure it emits an error message and no
button.  The Run Analysis handler calls it three times in sequence (diff,
first, last). -/

/-- A user-visible event emitted by `download_gee_image`. -/
inductive UIEvent where
  | exportSuccessMsg
  | downloadButton (file_name : String) (data : List ℕ)
  | errorMsg (msg : String)
  deriving DecidableEq, Repr

/-- Prefix of the error message in `download_gee_image`. -/
def exportFailedMsg : String := "Image export failed: "

/-- Filename of the diff-raster export (source line 264). -/
def gesChangeFile : String := "ges-change.tif"

/-- Filename of the start-index export (source line 265). -/
def gesFirstFile : String := "ges-first.tif"

/-- Filename of the end-index export (source line 266). -/
def gesLastFile : String := "ges-last.tif"

/-- Source lines 191-220: the export either yields the file bytes or fails
with an error message; the `except` branch surfaces the error and offers no
download. -/
def download_gee_image (export_result : Except String (List ℕ)) (filename : String) :
    List UIEvent :=
  match export_result with
  | .ok bytes => [.exportSuccessMsg, .downloadButton filename bytes]
  | .error e => [.errorMsg (exportFailedMsg ++ e)]

/-- Source lines 264-266: the three export calls of the Run Analysis
handler, in order. -/
def run_exports (diff_result first_result last_result : Except String (List ℕ)) :
    List UIEvent :=
  download_gee_image diff_result gesChangeFile
    ++ download_gee_image first_result gesFirstFile
    ++ download_gee_image last_result gesLastFile

/-! # Theorems -/

/-- C4: the `except` branch of `get_ges` re-signals a backend error as a
distinct domain error exactly when its message mentions a memory limit
(yielding a `MemoryError` whose message suggests a smaller area and a shorter
time range) or a timeout (yielding a `TimeoutError` with the same guidance,
when no memory keyword is present), and every other backend error is re-raised
unchanged. -/
theorem get_ges_error_classification (msg : String) :
    (get_ges_handle_error msg = .memoryError memoryLimitMsg ↔ mentionsMemory msg = true)
    ∧ (get_ges_handle_error msg = .timeoutError timeoutMsg
        ↔ (mentionsTimeout msg = true ∧ mentionsMemory msg = false))
    ∧ (get_ges_handle_error msg = .eeError msg
        ↔ (mentionsMemory msg = false ∧ mentionsTimeout msg = false))
    ∧ containsSub kwSmallerArea (lowered memoryLimitMsg) = true
    ∧ containsSub kwShorterRange (lowered memoryLimitMsg) = true
    ∧ containsSub kwSmallerArea (lowered timeoutMsg) = true := by
  unfold get_ges_handle_error mentionsMemory mentionsTimeout
  by_cases hm : (containsSub kwOutOfMemory (lowered msg)
      || containsSub kwMemory (lowered msg)) = true
  · simp [hm]
    decide
  · simp only [Bool.not_eq_true] at hm
    by_cases ht : containsSub kwTimeout (lowered msg) = true
    · simp [hm, ht]
      decide
    · simp only [Bool.not_eq_true] at ht
      simp [hm, ht]
      decide

/-- C1: for every region and year the index raster computed by `get_ges`
equals `0.5 * normalize(NDVI_composite) + 0.5 * (normalize(LST_composite) - 100)`
with `normalize(x) = (x - regionMin(x)) / (regionMax(x) - regionMin(x)) * 100`
taken over the region-wide min/max of that same composite, the 100-point
downward shift being applied to the normalized temperature term before the
0.5 blend weight. -/
theorem ges_blend_formula {n : ℕ} (ndvi_mean lst_mean : Fin (n + 1) → ℚ)
    (i : Fin (n + 1)) :
    GES_raster ndvi_mean lst_mean i
      = 0.5 * spec_normalize (ndvi_mean i) (regionMin ndvi_mean) (regionMax ndvi_mean)
        + 0.5 * (spec_normalize (lst_mean i) (regionMin lst_mean) (regionMax lst_mean) - 100) := by
  unfold GES_raster ndvi_normal lst_normal spec_normalize
  ring

/-- C5: assuming each composite's region minimum is strictly below its
maximum, every pixel of the index raster lies in `[-100, 100]`; a pixel whose
NDVI composite value equals the region NDVI minimum has normalized NDVI
component 0 before blending, and one at the region NDVI maximum has
normalized component 100. -/
theorem ges_index_bounds {n : ℕ} (ndvi_mean lst_mean : Fin (n + 1) → ℚ)
    (hn : regionMin ndvi_mean < regionMax ndvi_mean)
    (hl : regionMin lst_mean < regionMax lst_mean) (i : Fin (n + 1)) :
    (-100 ≤ GES_raster ndvi_mean lst_mean i ∧ GES_raster ndvi_mean lst_mean i ≤ 100)
    ∧ (ndvi_mean i = regionMin ndvi_mean → ndvi_normal ndvi_mean i = 0)
    ∧ (ndvi_mean i = regionMax ndvi_mean → ndvi_normal ndvi_mean i = 100) := by
  obtain ⟨hn0, hn1⟩ := ndvi_normal_bounds ndvi_mean hn i
  obtain ⟨hl0, hl1⟩ := ndvi_normal_bounds lst_mean hl i
  refine ⟨?_, ?_, ?_⟩
  · unfold GES_raster
    rw [lst_normal_shift]
    constructor <;> nlinarith
  · intro hmin
    unfold ndvi_normal
    rw [hmin, sub_self, zero_div, zero_mul]
  · intro hmax
    have hd : regionMax ndvi_mean - regionMin ndvi_mean ≠ 0 :=
      ne_of_gt (sub_pos.mpr hn)
    unfold ndvi_normal
    rw [hmax, div_self hd, one_mul]

/-- Witness for C5 at the concrete composites `![0, 1]` and `![0, 2]`. -/
theorem ges_index_bounds_witness :
    (regionMin ![(0:ℚ), 1] < regionMax ![(0:ℚ), 1]
      ∧ regionMin ![(0:ℚ), 2] < regionMax ![(0:ℚ), 2])
    ∧ ((-100 ≤ GES_raster ![(0:ℚ), 1] ![(0:ℚ), 2] 0
          ∧ GES_raster ![(0:ℚ), 1] ![(0:ℚ), 2] 0 ≤ 100)
        ∧ (![(0:ℚ), 1] 0 = regionMin ![(0:ℚ), 1]
            → ndvi_normal ![(0:ℚ), 1] 0 = 0)
        ∧ (![(0:ℚ), 1] 0 = regionMax ![(0:ℚ), 1]
            → ndvi_normal ![(0:ℚ), 1] 0 = 100)) :=
  ⟨⟨by decide, by decide⟩, ges_index_bounds ![0, 1] ![0, 2] (by decide) (by decide) 0⟩

/-- C10: assuming each composite's region minimum is strictly below its
maximum, the weighted NDVI term lies in `[0, 50]`, the weighted shifted LST
term lies in `[-50, 0]`, and every pixel of the index raster lies in the
`[-50, 50]` range that the visualization parameters `ges_params1` assume. -/
theorem ges_index_vis_range {n : ℕ} (ndvi_mean lst_mean : Fin (n + 1) → ℚ)
    (hn : regionMin ndvi_mean < regionMax ndvi_mean)
    (hl : regionMin lst_mean < regionMax lst_mean) (i : Fin (n + 1)) :
    (0 ≤ ndvi_normal ndvi_mean i * 0.5 ∧ ndvi_normal ndvi_mean i * 0.5 ≤ 50)
    ∧ (-50 ≤ lst_normal lst_mean i * 0.5 ∧ lst_normal lst_mean i * 0.5 ≤ 0)
    ∧ (ges_params1_min ≤ GES_raster ndvi_mean lst_mean i
        ∧ GES_raster ndvi_mean lst_mean i ≤ ges_params1_max) := by
  obtain ⟨hn0, hn1⟩ := ndvi_normal_bounds ndvi_mean hn i
  obtain ⟨hl0, hl1⟩ := ndvi_normal_bounds lst_mean hl i
  have hshift := lst_normal_shift lst_mean i
  refine ⟨⟨by nlinarith, by nlinarith⟩, ⟨by nlinarith, by nlinarith⟩, ?_⟩
  unfold GES_raster ges_params1_min ges_params1_max
  rw [hshift]
  constructor <;> nlinarith

/-- Witness for C10 at the concrete composites `![1, 3]` and `![0, 4]`. -/
theorem ges_index_vis_range_witness :
    (regionMin ![(1:ℚ), 3] < regionMax ![(1:ℚ), 3]
      ∧ regionMin ![(0:ℚ), 4] < regionMax ![(0:ℚ), 4])
    ∧ ((0 ≤ ndvi_normal ![(1:ℚ), 3] 1 * 0.5 ∧ ndvi_normal ![(1:ℚ), 3] 1 * 0.5 ≤ 50)
        ∧ (-50 ≤ lst_normal ![(0:ℚ), 4] 1 * 0.5 ∧ lst_normal ![(0:ℚ), 4] 1 * 0.5 ≤ 0)
        ∧ (ges_params1_min ≤ GES_raster ![(1:ℚ), 3] ![(0:ℚ), 4] 1
            ∧ GES_raster ![(1:ℚ), 3] ![(0:ℚ), 4] 1 ≤ ges_params1_max)) :=
  ⟨⟨by decide, by decide⟩, ges_index_vis_range ![1, 3] ![0, 4] (by decide) (by decide) 1⟩

/-- C2: the classes of `ges_params`, iterated in fixed order by
`process_and_display`, partition the diff raster's value domain exhaustively
and disjointly: every pixel value of the diff raster
`GES_last.subtract(GES_first)` falls into exactly one of the five classes
(half-open intervals, the last open-ended upward), and the summed class
counts equal the total valid pixel count of the diff raster. -/
theorem classify_partitions_diff {n : ℕ} (ndvi1 lst1 ndvi2 lst2 : Fin (n + 1) → ℚ)
    (h1 : regionMin ndvi1 < regionMax ndvi1) (h2 : regionMin lst1 < regionMax lst1)
    (h3 : regionMin ndvi2 < regionMax ndvi2) (h4 : regionMin lst2 < regionMax lst2) :
    (∀ (i : Fin (n + 1)) (v : ℚ),
        imageSubtract (fun j => some (GES_raster ndvi2 lst2 j))
            (fun j => some (GES_raster ndvi1 lst1 j)) i = some v
          → ges_params.countP (fun c => class_mask c.2.1 c.2.2 v) = 1)
    ∧ ((class_counts (imageSubtract (fun j => some (GES_raster ndvi2 lst2 j))
            (fun j => some (GES_raster ndvi1 lst1 j)))).map Prod.snd).sum
        = reduceRegionCount (imageSubtract (fun j => some (GES_raster ndvi2 lst2 j))
            (fun j => some (GES_raster ndvi1 lst1 j))) := by
  have hval : ∀ (i : Fin (n + 1)) (v : ℚ),
      imageSubtract (fun j => some (GES_raster ndvi2 lst2 j))
          (fun j => some (GES_raster ndvi1 lst1 j)) i = some v → -100 ≤ v := by
    intro i v hiv
    have hred : imageSubtract (fun j => some (GES_raster ndvi2 lst2 j))
        (fun j => some (GES_raster ndvi1 lst1 j)) i
        = some (GES_raster ndvi2 lst2 i - GES_raster ndvi1 lst1 i) := rfl
    rw [hred] at hiv
    obtain ⟨ha, _⟩ := GES_raster_range ndvi2 lst2 h3 h4 i
    obtain ⟨_, hb⟩ := GES_raster_range ndvi1 lst1 h1 h2 i
    cases hiv
    linarith
  exact ⟨fun i v hiv => class_countP_eq_one v (hval i v hiv),
    class_counts_sum_eq_total _ hval⟩

/-- Witness for C2 at the concrete composites `![0, 1]`, `![0, 1]`,
`![0, 2]`, `![1, 3]`. -/
theorem classify_partitions_diff_witness :
    (regionMin ![(0:ℚ), 1] < regionMax ![(0:ℚ), 1]
      ∧ regionMin ![(0:ℚ), 2] < regionMax ![(0:ℚ), 2]
      ∧ regionMin ![(1:ℚ), 3] < regionMax ![(1:ℚ), 3])
    ∧ ((∀ (i : Fin 2) (v : ℚ),
          imageSubtract (fun j => some (GES_raster ![(0:ℚ), 2] ![(1:ℚ), 3] j))
              (fun j => some (GES_raster ![(0:ℚ), 1] ![(0:ℚ), 1] j)) i = some v
            → ges_params.countP (fun c => class_mask c.2.1 c.2.2 v) = 1)
        ∧ ((class_counts (imageSubtract (fun j => some (GES_raster ![(0:ℚ), 2] ![(1:ℚ), 3] j))
              (fun j => some (GES_raster ![(0:ℚ), 1] ![(0:ℚ), 1] j)))).map Prod.snd).sum
            = reduceRegionCount (imageSubtract
                (fun j => some (GES_raster ![(0:ℚ), 2] ![(1:ℚ), 3] j))
                (fun j => some (GES_raster ![(0:ℚ), 1] ![(0:ℚ), 1] j)))) :=
  ⟨⟨by decide, by decide, by decide⟩,
    classify_partitions_diff ![0, 1] ![0, 1] ![0, 2] ![1, 3]
      (by decide) (by decide) (by decide) (by decide)⟩

/-- C3 counterexample: `get_ges` filters with
`filterDate` from year-01-01 to year-12-31, whose end bound is exclusive,
so a scene dated December 31 of the year is NOT included (the collection
filters to empty), while a December 30 scene is. -/
theorem filterDate_excludes_dec31 :
    get_image_collection [scene_dec31] (get_ges_start_date 2022) (get_ges_end_date 2022) none = []
    ∧ get_image_collection [scene_dec30] (get_ges_start_date 2022) (get_ges_end_date 2022) none
        = [scene_dec30] :=
  ⟨rfl, rfl⟩

/-- C3 amended: for every year, `get_ges` filters each satellite product
collection to the scenes meeting the region whose date lies in the half-open
interval `[year-01-01, year-12-31)` — the start bound inclusive, the end
bound exclusive, so December 31 scenes are excluded. -/
theorem get_image_collection_date_range {n : ℕ} (year : ℕ) (col : List (Scene n))
    (s : Scene n) :
    s ∈ get_image_collection col (get_ges_start_date year) (get_ges_end_date year) none
      ↔ s ∈ col ∧ s.inBounds = true
          ∧ (get_ges_start_date year).toOrd ≤ s.date.toOrd
          ∧ s.date.toOrd < (get_ges_end_date year).toOrd := by
  simp only [get_image_collection, filterDateCol, filterBoundsCol, List.mem_filter,
    Bool.and_eq_true, decide_eq_true_eq, and_assoc]

/-- C6 counterexample: with a single masked LST scene whose pixel 0 is valid
with value 10 and whose pixel 1 is masked, the composite built by
`lst.median().unmask().focal_mean(radius=1, ...).clip(...)` changes the
already-valid median pixel 0 from 10 to 5 (the masked neighbour enters the
mean as the unmask default 0), refuting that valid median pixels are left
unchanged and that only gaps are filled. -/
theorem lst_composite_changes_valid_pixel :
    ee_median [demoLstScene] 0 = some 10
    ∧ lst_mean_pipeline [demoLstScene] demoRegionAll 0 = some 5
    ∧ (5 : ℚ) ≠ 10 := by
  have hnb : neighbors 2 0 = {0, 1} := by decide
  have h0 : unmaskImage (ee_median [demoLstScene]) 0 = 10 := rfl
  have h1 : unmaskImage (ee_median [demoLstScene]) 1 = 0 := rfl
  refine ⟨rfl, ?_, by norm_num⟩
  simp only [lst_mean_pipeline, clipImage, demoRegionAll, if_true, focal_mean_r1, hnb,
    Finset.sum_pair (show (0 : Fin 2) ≠ 1 by decide),
    Finset.card_pair (show (0 : Fin 2) ≠ 1 by decide), h0, h1, Option.some.injEq]
  norm_num

/-- C6 amended: in `get_ges` the temperature composite is the per-pixel
median of the masked LST scenes, unmasked to the default value 0, then
smoothed by a 1-pixel-radius focal mean applied to EVERY pixel (already-valid
median pixels included, masked pixels entering the mean as 0), then clipped
to the region: every in-region pixel equals the radius-1 neighbourhood mean
of the zero-filled median. -/
theorem lst_composite_is_smoothed_unmask {n : ℕ} (scenes : List (Fin n → Option ℚ))
    (region : Fin n → Bool) (i : Fin n) (h : region i = true) :
    lst_mean_pipeline scenes region i
      = some ((∑ j ∈ neighbors n i, (ee_median scenes j).getD 0) / (neighbors n i).card) := by
  unfold lst_mean_pipeline clipImage focal_mean_r1 unmaskImage
  rw [h]
  simp

/-- Witness for the amended C6 at the concrete scene `![some 10, none]`. -/
theorem lst_composite_is_smoothed_unmask_witness :
    demoRegionAll 1 = true
    ∧ lst_mean_pipeline [demoLstScene] demoRegionAll 1
        = some ((∑ j ∈ neighbors 2 1, (ee_median [demoLstScene] j).getD 0)
            / (neighbors 2 1).card) :=
  ⟨rfl, lst_composite_is_smoothed_unmask [demoLstScene] demoRegionAll 1 rfl⟩

/-- C7: the diff raster built by the Run Analysis handler
(`GES_diff = GES_last.subtract(GES_first)`) is the pixel-wise difference of
the end-year and start-year index rasters; in particular on the synthetic
2-pixel pair first = `[10, -10]`, last = `[30, 5]` it equals `[20, 15]`. -/
theorem ges_diff_is_pixelwise_difference :
    (∀ (n : ℕ) (gesLast gesFirst : Fin n → ℚ) (i : Fin n),
      imageSubtract (fun j => some (gesLast j)) (fun j => some (gesFirst j)) i
        = some (gesLast i - gesFirst i))
    ∧ imageSubtract demoLast demoFirst 0 = some 20
    ∧ imageSubtract demoLast demoFirst 1 = some 15 := by
  refine ⟨fun n gesLast gesFirst i => rfl, ?_, ?_⟩ <;>
    · simp only [imageSubtract, demoLast, demoFirst, Matrix.cons_val_zero, Matrix.cons_val_one,
        Matrix.head_cons]
      norm_num

/-- C8: the region resolver matches the country name exactly and
case-sensitively, but when no feature matches it raises nothing: the empty
geometry propagates silently through every derived geometry and
`return_intersect` returns an empty analysis strip, an empty region and an
empty collection instead of failing with a `NotFoundError`. -/
theorem return_intersect_silent_on_unknown_country :
    return_intersect demo_countries demo_coastlines unknown_country 5 = (∅, ∅, [])
    ∧ fc_filter_eq demo_countries unknown_country = []
    ∧ fc_filter_eq demo_countries lowercase_yemen = []
    ∧ fc_filter_eq demo_countries yemen_name ≠ [] := by
  refine ⟨?_, ?_, ?_, ?_⟩ <;> decide

/-- C9: the three raster exports of one run are independent: a download
button for a file appears in the event trace exactly when that file's own
export succeeded (so a failed export never blocks the other two and never
offers a stale or partial file), and every failed export surfaces its error
message in the trace. -/
theorem export_failures_independent
    (diff_result first_result last_result : Except String (List ℕ)) :
    (∀ b, UIEvent.downloadButton gesChangeFile b
          ∈ run_exports diff_result first_result last_result
        ↔ diff_result = Except.ok b)
    ∧ (∀ b, UIEvent.downloadButton gesFirstFile b
          ∈ run_exports diff_result first_result last_result
        ↔ first_result = Except.ok b)
    ∧ (∀ b, UIEvent.downloadButton gesLastFile b
          ∈ run_exports diff_result first_result last_result
        ↔ last_result = Except.ok b)
    ∧ (∀ e, diff_result = Except.error e
        → UIEvent.errorMsg (exportFailedMsg ++ e)
            ∈ run_exports diff_result first_result last_result)
    ∧ (∀ e, first_result = Except.error e
        → UIEvent.errorMsg (exportFailedMsg ++ e)
            ∈ run_exports diff_result first_result last_result)
    ∧ (∀ e, last_result = Except.error e
        → UIEvent.errorMsg (exportFailedMsg ++ e)
            ∈ run_exports diff_result first_result last_result) := by
  rcases diff_result with e1 | b1 <;> rcases first_result with e2 | b2 <;>
    rcases last_result with e3 | b3 <;>
    simp [run_exports, download_gee_image, gesChangeFile, gesFirstFile, gesLastFile, eq_comm]

/-- A failing export outcome used to instantiate C9. -/
def demoFailRes : Except String (List ℕ) := Except.error timeoutMsg

/-- A succeeding export outcome used to instantiate C9. -/
def demoOkRes1 : Except String (List ℕ) := Except.ok [1]

/-- Another succeeding export outcome used to instantiate C9. -/
def demoOkRes2 : Except String (List ℕ) := Except.ok [2]

/-- Witness for C9 with a failing diff export and two succeeding exports. -/
theorem export_failures_independent_witness :
    (∀ b, UIEvent.downloadButton gesChangeFile b
          ∈ run_exports demoFailRes demoOkRes1 demoOkRes2
        ↔ demoFailRes = Except.ok b)
    ∧ (∀ b, UIEvent.downloadButton gesFirstFile b
          ∈ run_exports demoFailRes demoOkRes1 demoOkRes2
        ↔ demoOkRes1 = Except.ok b)
    ∧ (∀ b, UIEvent.downloadButton gesLastFile b
          ∈ run_exports demoFailRes demoOkRes1 demoOkRes2
        ↔ demoOkRes2 = Except.ok b)
    ∧ (∀ e, demoFailRes = Except.error e
        → UIEvent.errorMsg (exportFailedMsg ++ e)
            ∈ run_exports demoFailRes demoOkRes1 demoOkRes2)
    ∧ (∀ e, demoOkRes1 = Except.error e
        → UIEvent.errorMsg (exportFailedMsg ++ e)
            ∈ run_exports demoFailRes demoOkRes1 demoOkRes2)
    ∧ (∀ e, demoOkRes2 = Except.error e
        → UIEvent.errorMsg (exportFailedMsg ++ e)
            ∈ run_exports demoFailRes demoOkRes1 demoOkRes2) :=
  export_failures_independent demoFailRes demoOkRes1 demoOkRes2
